import Mathlib

/-!
Verification development for the crdt-lib-bench repository.

The embedding covers:
* `simpleBench.ts` (`SimpleBench`): the timing harness — warmup, the
  measurement loop, the statistics, and the task-name parsing;
* `crdtBenchmarks.ts` (`CRDTBenchmarks`, `BENCHMARK_CONFIG`, `CODE_SNIPPETS`,
  `BENCHMARK_GROUPS`): the suite orchestrator, its grouping of registry keys
  by operation segment, and the shared mutable configuration object;
* `benchmarkWorker.ts` (`self.onmessage`): the worker message handler and the
  outbound message traces it produces.

Modelling conventions:
* JavaScript strings are `List Char` (`JSString`); `String.prototype.split`
  and `trim` are re-implemented structurally so that concrete computations
  reduce in the kernel.
* Wall-clock time is idealized: the clock advances exactly by the duration of
  each task invocation (zero loop overhead), durations and the timeout are
  rationals, and real-valued statistics use mathematical reals. The one
  computation of the source that can genuinely divide by zero — the relative
  error `(stdDev / mean) * 100` — is not collapsed by total division: its
  float zero-division edges (`NaN`, `+Infinity`) are classified explicitly by
  `relativeErrorJs`.
* A task executable (`fn`) is modelled by its observable behaviour per
  invocation: whether the n-th invocation throws, and how long it takes.
* JavaScript object iteration over non-numeric string keys is insertion
  order; the grouping maps are modelled as insertion-ordered association
  lists accordingly.
-/

/-- JavaScript strings, modelled as lists of characters. -/
abbrev JSString := List Char

/-- If `sep` is a prefix of `s`, return the remainder of `s`; otherwise `none`.
Helper for the JS `String.prototype.split` model. -/
def dropSep : JSString → JSString → Option JSString
  | [], s => some s
  | _ :: _, [] => none
  | c :: cs, d :: ds => if c = d then dropSep cs ds else none

/-- Fuel-driven worker for `jsSplit`. `acc` holds the current segment in
reverse. The fuel is always at least `rest.length + 1`, so the fuel-0 case is
never reached in `jsSplit`. -/
def jsSplitAux (sep : JSString) : Nat → JSString → JSString → List JSString
  | 0, acc, rest => [acc.reverse ++ rest]
  | fuel + 1, acc, rest =>
    match dropSep sep rest with
    | some rest' => acc.reverse :: jsSplitAux sep fuel [] rest'
    | none =>
      match rest with
      | [] => [acc.reverse]
      | c :: cs => jsSplitAux sep fuel (c :: acc) cs

/-- JS `s.split(sep)` for a non-empty separator: left-to-right,
non-overlapping matches; the empty string splits to `[""]`. -/
def jsSplit (sep s : JSString) : List JSString := jsSplitAux sep (s.length + 1) [] s

/-- JS whitespace test (the characters that occur in this repository). -/
def isJsSpace (c : Char) : Bool := c = ' ' || c = '\t' || c = '\n' || c = '\r'

/-- JS `s.trim()`. -/
def jsTrim (s : JSString) : JSString :=
  ((s.dropWhile isJsSpace).reverse.dropWhile isJsSpace).reverse

/-- The composite-key delimiter `" - "` used throughout the repository. -/
def sepDash : JSString := " - ".toList

/-- A value thrown by a task executable: either a JS `Error` (with message and
optional stack trace, as tested by `error instanceof Error` in the worker), or
any other thrown value. -/
inductive JsThrown where
  | error (message : JSString) (stack : Option JSString)
  | nonError
deriving DecidableEq

/-- Observable behaviour of a task executable (`fn`): for the n-th invocation
(counted from 0, warmup included), whether it throws, and its duration in
milliseconds. -/
structure TaskBehavior where
  err : Nat → Option JsThrown
  dur : Nat → ℚ

/-- `simpleBench.ts`: a registered benchmark task `{ name, fn, code }`. -/
structure BenchmarkTask where
  name : JSString
  behavior : TaskBehavior
  code : JSString

/-- `simpleBench.ts`: the `BenchmarkResult` record produced by `runTask`.
The float-valued `error` field (relative error) is kept as the derived
function `relativeErrorJs` on `samples`, so that this structure stays
computable; see `relativeErrorJs` below. -/
structure BenchmarkResult where
  name : JSString
  library : JSString
  opsPerSecond : ℚ
  samples : List ℚ
  code : JSString
  executionTime : ℚ
deriving DecidableEq

/-- `SimpleBench` constructor: `this.timeoutMs = options.timeoutMs || 500`
(JS `||` replaces the falsy value 0 by the default). -/
def effTimeoutMs (o : Option ℚ) : ℚ :=
  match o with
  | none => 500
  | some t => if t = 0 then 500 else t

/-- `SimpleBench` constructor: `this.iterations = options.iterations || 50`. -/
def effIterations (o : Option Nat) : Nat :=
  match o with
  | none => 50
  | some n => if n = 0 then 50 else n

/-- `runTask` warmup count (`const warmupIterations = 5`). -/
def warmupIterations : Nat := 5

/-- The warmup loop: invoke the executable `k` times starting at invocation
index `idx`; the first throw propagates. -/
def warmupAux (tb : TaskBehavior) : Nat → Nat → Except JsThrown Unit
  | 0, _ => .ok ()
  | k + 1, idx =>
    match tb.err idx with
    | some e => .error e
    | none => warmupAux tb k (idx + 1)

/-- `runTask`'s warmup phase: 5 invocations, timing discarded. -/
def warmupRun (tb : TaskBehavior) : Except JsThrown Unit :=
  warmupAux tb warmupIterations 0

/-- The measurement loop of `runTask`:
`while (performance.now() < endTime && iteration < this.iterations)`.
`fuel` is the number of iterations still allowed (`maxIter - iteration`),
`idx` the next invocation index, `elapsed` the clock relative to the
measurement start, `acc` the samples so far in reverse. The guard is checked
before each invocation; an in-flight invocation is never interrupted. -/
def measureAux (tb : TaskBehavior) (tout : ℚ) : Nat → Nat → ℚ → List ℚ → Except JsThrown (List ℚ)
  | 0, _, _, acc => .ok acc.reverse
  | fuel + 1, idx, elapsed, acc =>
    if elapsed < tout then
      match tb.err idx with
      | some e => .error e
      | none => measureAux tb tout fuel (idx + 1) (elapsed + tb.dur idx) (tb.dur idx :: acc)
    else .ok acc.reverse

/-- `runTask`'s task-name parsing:
`const nameParts = task.name.split(" - ");`
`const library = nameParts[0];`
`const operation = nameParts.length > 1 ? nameParts[1] : task.name;`
Returns `(library, operation)`. -/
def parseTaskName (name : JSString) : JSString × JSString :=
  match jsSplit sepDash name with
  | p0 :: p1 :: _ => (p0, p1)
  | [p0] => (p0, name)
  | [] => (name, name)

/-- Stated from the spec's words, for comparison with `parseTaskName`:
split on the *first* occurrence of `" - "`; the left segment is the
implementation, the *entire remainder* is the operation; with no delimiter
both fields are the full name. -/
def specParseTaskName (name : JSString) : JSString × JSString :=
  match jsSplit sepDash name with
  | p0 :: p1 :: rest => (p0, List.intercalate sepDash (p1 :: rest))
  | _ => (name, name)

/-- `SimpleBench.runTask`: warmup, measurement loop, then the result record.
`totalOps` always equals `samples.length` (both are incremented together in
the source), and under the zero-overhead clock `totalTime` — the wall-clock
elapsed since the measurement start — is the sum of the sample durations.
The display-code field is passed through unchanged. -/
def SimpleBench.runTask (tout : ℚ) (maxIter : Nat) (task : BenchmarkTask) :
    Except JsThrown BenchmarkResult :=
  match warmupRun task.behavior with
  | .error e => .error e
  | .ok _ =>
    match measureAux task.behavior tout maxIter warmupIterations 0 [] with
    | .error e => .error e
    | .ok samples =>
      let totalTime := samples.sum
      let libOp := parseTaskName task.name
      .ok
        { name := libOp.2
          library := libOp.1
          opsPerSecond := ((samples.length : ℚ) / totalTime) * 1000
          samples := samples
          code := task.code
          executionTime := totalTime }

/-- `SimpleBench.run`: execute every registered task sequentially in
registration order; the first exception propagates and no result list is
returned for that run. -/
def SimpleBench.run (tout : ℚ) (maxIter : Nat) : List BenchmarkTask → Except JsThrown (List BenchmarkResult)
  | [] => .ok []
  | t :: rest =>
    match SimpleBench.runTask tout maxIter t with
    | .error e => .error e
    | .ok r =>
      match SimpleBench.run tout maxIter rest with
      | .error e => .error e
      | .ok rs => .ok (r :: rs)

/-- `runTask` statistics: `mean` of the samples. For a nonempty list this is
the source's float value exactly (idealized arithmetic); on the empty list
the source's float division `0 / 0` yields `NaN`, which Lean's total
division renders as `0` — that degenerate value is consumed only by
`relativeErrorJs`, whose classification maps it back to `NaN` as the float
code does. -/
def mean (l : List ℚ) : ℚ := l.sum / l.length

/-- `runTask` statistics: population variance of the samples. -/
def variance (l : List ℚ) : ℚ := (l.map (fun v => (v - mean l) ^ 2)).sum / l.length

/-- `runTask` statistics: `stdDev = Math.sqrt(variance)`, idealized over ℝ. -/
noncomputable def stdDev (l : List ℚ) : ℝ := Real.sqrt ((variance l : ℚ) : ℝ)

/-- Classification of the value the source's float computation
`(stdDev / mean) * 100` produces: a finite real; `NaN`; or `+Infinity`. -/
inductive JsRelError where
  | finite (x : ℝ)
  | nan
  | posInf

/-- `runTask` statistics: `relativeError = (stdDev / mean) * 100`, the value
stored in the result's `error` field, with the float zero-division edges
made explicit: a finite real when the mean is nonzero; `NaN` when stdDev and
mean are both 0 — the float division `0 / 0`, which happens for an all-zero
sample list (`performance.now()` deltas can be exactly 0), and also covers
the empty list, where the mean itself is already `NaN` in the source;
`+Infinity` when the mean is 0 but the standard deviation is positive. -/
noncomputable def relativeErrorJs (l : List ℚ) : JsRelError :=
  if ((mean l : ℚ) : ℝ) ≠ 0 then JsRelError.finite ((stdDev l / ((mean l : ℚ) : ℝ)) * 100)
  else if stdDev l = 0 then JsRelError.nan
  else JsRelError.posInf

/-- `crdtBenchmarks.ts`: the shared mutable `BENCHMARK_CONFIG` object. -/
structure BenchmarkConfig where
  OP_SIZE : Nat
  SYNC_ITERATIONS : Nat
  SYNC_CONCURRENT_DOCS : Nat
  SYNC_CONCURRENT_OPS : Nat
deriving DecidableEq

/-- The module-level initial value of `BENCHMARK_CONFIG`. -/
def defaultBenchmarkConfig : BenchmarkConfig :=
  { OP_SIZE := 128
    SYNC_ITERATIONS := 20
    SYNC_CONCURRENT_DOCS := 5
    SYNC_CONCURRENT_OPS := 10 }

/-- `CODE_SNIPPETS["Yjs - Text Insert"].fn`: builds a fresh document and
inserts `"a"` at position 0, `BENCHMARK_CONFIG.OP_SIZE` times. The executable
reads the configuration object *live at invocation time*, so it is a function
of the configuration current when it is called; its result is the final text
content. -/
def yjsTextInsertFn (cfg : BenchmarkConfig) : List Char :=
  (List.range cfg.OP_SIZE).foldl (fun text _ => 'a' :: text) []

/-- The `CRDTBenchmarks` constructor's conditional assignment:
`if (opSize) { BENCHMARK_CONFIG.OP_SIZE = opSize; }` (JS truthiness: the
assignment is skipped for `undefined` and for `0`). -/
def ctorApplyOpSize (opSize : Option Nat) (cfg : BenchmarkConfig) : BenchmarkConfig :=
  match opSize with
  | some n => if n ≠ 0 then { cfg with OP_SIZE := n } else cfg
  | none => cfg

/-- The config-snapshot scenario of the spec, played on the code: construct
the orchestrator with `opSize = buildOpSize` (the constructor mutates the
shared config), build/register the `Yjs - Text Insert` task (registration
stores the executable itself — a function of the live configuration), then
mutate the shared configuration's op-size to `mutatedOpSize` before `run()`,
and finally invoke the built task once. Returns the number of insert
operations the invocation performs. -/
def configSnapshotRun (buildOpSize mutatedOpSize : Nat) : Nat :=
  let cfg₀ := ctorApplyOpSize (some buildOpSize) defaultBenchmarkConfig
  let builtTask : BenchmarkConfig → List Char := yjsTextInsertFn
  let cfg₁ := { cfg₀ with OP_SIZE := mutatedOpSize }
  (builtTask cfg₁).length

/-- An entry of the `CODE_SNIPPETS` registry: the display code and the
executable's observable behaviour. -/
structure Snippet where
  code : JSString
  fn : TaskBehavior

/-- The `CODE_SNIPPETS` registry, as an insertion-ordered key/value list. -/
abbrev Registry := List (JSString × Snippet)

/-- First-occurrence de-duplication step. -/
def dedupStep {α : Type} [DecidableEq α] (acc : List α) (x : α) : List α :=
  if x ∈ acc then acc else acc ++ [x]

/-- De-duplicate a list keeping first occurrences in order (the order in
which a JS `Set` or object accumulates distinct keys). -/
def dedupFirstOcc {α : Type} [DecidableEq α] (l : List α) : List α :=
  l.foldl dedupStep []

/-- The operation segment that `groupBenchmarksByOperation` extracts from a
registry key: `parts[1].trim()` when `key.split(" - ").length > 1`, no group
otherwise. -/
def opSegment (key : JSString) : Option JSString :=
  match jsSplit sepDash key with
  | _ :: p1 :: _ => some (jsTrim p1)
  | _ => none

/-- The operation segment extracted by the `BENCHMARK_GROUPS` initializer
(`parts[1]`, without `trim`). -/
def opSegmentRaw (key : JSString) : Option JSString :=
  match jsSplit sepDash key with
  | _ :: p1 :: _ => some p1
  | _ => none

/-- JS default string comparison (`a < b`), lexicographic on code units. -/
def jsStrLtB : JSString → JSString → Bool
  | [], [] => false
  | [], _ :: _ => true
  | _ :: _, [] => false
  | a :: as, b :: bs =>
    if a.val < b.val then true else if b.val < a.val then false else jsStrLtB as bs

/-- Insert into a list sorted by the JS default string order. -/
def insertSorted (x : JSString) : List JSString → List JSString
  | [] => [x]
  | y :: ys => if jsStrLtB y x then y :: insertSorted x ys else x :: y :: ys

/-- Sort a list of strings in the JS default (`Array.prototype.sort`) order. -/
def sortJS (l : List JSString) : List JSString := l.foldr insertSorted []

/-- `BENCHMARK_GROUPS`: the distinct raw operation segments of the registry
keys, first-occurrence de-duplicated (a JS `Set`), then sorted. -/
def BENCHMARK_GROUPS_of (keys : List JSString) : List JSString :=
  sortJS (dedupFirstOcc (keys.filterMap opSegmentRaw))

/-- Stated from the spec's words, for comparison with the category sequence
the code actually runs: the sorted, de-duplicated list of operation names. -/
def specSortedCategories (keys : List JSString) : List JSString :=
  sortJS (dedupFirstOcc (keys.filterMap opSegment))

/-- One step of `groupBenchmarksByOperation`'s accumulation into the
`groups` object: an existing operation key keeps its position and gets the
registry key appended; a new operation key is appended at the end (JS object
insertion order for non-numeric string keys). -/
def insertGroup (op key : JSString) : List (JSString × List JSString) → List (JSString × List JSString)
  | [] => [(op, [key])]
  | (g, ks) :: rest =>
    if g = op then (g, ks ++ [key]) :: rest else (g, ks) :: insertGroup op key rest

/-- Fold step of `groupBenchmarksByOperation` over the registry keys. -/
def groupStep (gs : List (JSString × List JSString)) (key : JSString) :
    List (JSString × List JSString) :=
  match opSegment key with
  | some op => insertGroup op key gs
  | none => gs

/-- `CRDTBenchmarks.groupBenchmarksByOperation`: group the registry keys by
their (trimmed) operation segment into an insertion-ordered map. -/
def CRDTBenchmarks.groupBenchmarksByOperation (keys : List JSString) :
    List (JSString × List JSString) :=
  keys.foldl groupStep []

/-- The sequence of category labels that `runAllBenchmarks` iterates
(`Object.entries(benchmarkGroups)`): for each label, in this order, the
harness is reset, the group's tasks are registered, `run()` is awaited and
`onProgress` is invoked. -/
def CRDTBenchmarks.runAllCategorySequence (keys : List JSString) : List JSString :=
  (CRDTBenchmarks.groupBenchmarksByOperation keys).map Prod.fst

/-- `CRDTBenchmarks.runBenchmarkGroup`: reset the harness (modelled by
running on a freshly built task list), register the snippet of every key in
the group that exists in the registry (`if (!snippet) continue`), and run.
The display-code placeholder substitution is elided: it only rewrites the
stored display string and no behaviour depends on it. -/
def CRDTBenchmarks.runBenchmarkGroup (reg : Registry) (tout : ℚ) (maxIter : Nat)
    (benchmarkKeys : List JSString) : Except JsThrown (List BenchmarkResult) :=
  SimpleBench.run tout maxIter
    (benchmarkKeys.filterMap fun k =>
      (List.lookup k reg).map fun sn => BenchmarkTask.mk k sn.fn sn.code)

/-- The orchestrator's loop over the grouped categories, threading the
cumulative result array. Returns the list of cumulative snapshots passed to
`onProgress` (one per completed category) and the final outcome: the full
cumulative array, or the first uncaught exception. -/
def CRDTBenchmarks.runGroups (reg : Registry) (tout : ℚ) (maxIter : Nat) :
    List (JSString × List JSString) → List BenchmarkResult →
    List (List BenchmarkResult) × Except JsThrown (List BenchmarkResult)
  | [], cum => ([], .ok cum)
  | (_, keys) :: rest, cum =>
    match CRDTBenchmarks.runBenchmarkGroup reg tout maxIter keys with
    | .error e => ([], .error e)
    | .ok rs =>
      let cum' := cum ++ rs
      let p := CRDTBenchmarks.runGroups reg tout maxIter rest cum'
      (cum' :: p.1, p.2)

/-- `CRDTBenchmarks.runAllBenchmarks`: group the registry keys by operation,
then run the groups in the map's (insertion) order. -/
def CRDTBenchmarks.runAllBenchmarks (reg : Registry) (tout : ℚ) (maxIter : Nat) :
    List (List BenchmarkResult) × Except JsThrown (List BenchmarkResult) :=
  CRDTBenchmarks.runGroups reg tout maxIter
    (CRDTBenchmarks.groupBenchmarksByOperation (reg.map Prod.fst)) []

/-- Digits of a natural number, fuel-driven (`fuel ≥ 1` suffices for `n = 0`,
and `fuel > log10 n` in general; `natToJS` passes `n + 1`). -/
def natToJSAux : Nat → Nat → JSString → JSString
  | 0, _, acc => acc
  | fuel + 1, n, acc =>
    let acc' := Char.ofNat (48 + n % 10) :: acc
    if n < 10 then acc' else natToJSAux fuel (n / 10) acc'

/-- Decimal rendering of a natural number (JS template-literal coercion). -/
def natToJS (n : Nat) : JSString := natToJSAux (n + 1) n []

/-- Inbound control messages of `benchmarkWorker.ts`: the bare `"start"`
string, the structured `{type: "start", opSize?}` object, the
`{type: "runSingle", ...}` object the UI sends, or any other message. -/
inductive InboundMsg where
  | bareStart
  | structuredStart (opSize : Option Nat)
  | runSingle (benchmarkName : JSString) (opSize : Option Nat)
  | other
deriving DecidableEq

/-- Outbound messages posted by `benchmarkWorker.ts`. -/
inductive WorkerMsg where
  | status (message : JSString)
  | progress (results : List BenchmarkResult) (message : JSString)
  | complete (results : List BenchmarkResult) (message : JSString)
  | error (error : JSString) (stack : Option JSString)
deriving DecidableEq

/-- The worker's `catch` branch: an `Error` instance is posted with its
message and stack; any other thrown value is posted as an unknown error. -/
def workerErrorMsg : JsThrown → WorkerMsg
  | .error m s => .error m s
  | .nonError => .error "An unknown error occurred".toList none

/-- The worker's progress-callback message:
``Completed ${new Set(results.map(r => r.name)).size} of ${BENCHMARK_GROUPS.length} benchmark suites``. -/
def progressMessage (reg : Registry) (results : List BenchmarkResult) : JSString :=
  "Completed ".toList ++ natToJS (dedupFirstOcc (results.map BenchmarkResult.name)).length ++
    " of ".toList ++ natToJS (BENCHMARK_GROUPS_of (reg.map Prod.fst)).length ++
    " benchmark suites".toList

/-- Completion message of the bare-start branch (also used verbatim by its
delayed re-send). -/
def completeMsgBare : JSString := "All benchmarks completed successfully".toList

/-- Completion message of the structured-start branch for op-size `v`. -/
def completeMsgStructured (v : Nat) : JSString :=
  "All benchmarks completed successfully with ".toList ++ natToJS v ++
    " operations per iteration".toList

/-- Outbound trace of the worker's bare `"start"` branch: two status
messages, one progress message per completed category, then on success the
`complete` message followed — after the 500 ms `setTimeout` (modelled by
trace order only) — by a re-send of the same final payload with type
`progress`; on an uncaught exception, a single error message instead. -/
def bareStartTrace (reg : Registry) (tout : ℚ) (maxIter : Nat) : List WorkerMsg :=
  WorkerMsg.status "Initializing benchmarks...".toList ::
    WorkerMsg.status "Running benchmarks...".toList ::
    ((CRDTBenchmarks.runAllBenchmarks reg tout maxIter).1.map
        (fun rs => WorkerMsg.progress rs (progressMessage reg rs)) ++
      match (CRDTBenchmarks.runAllBenchmarks reg tout maxIter).2 with
      | .ok res => [WorkerMsg.complete res completeMsgBare,
                    WorkerMsg.progress res completeMsgBare]
      | .error e => [workerErrorMsg e])

/-- Outbound trace of the worker's structured `{type:"start"}` branch with
effective op-size `v`, same shape as the bare branch with parameterized
message texts. -/
def structuredStartTrace (reg : Registry) (tout : ℚ) (maxIter : Nat) (v : Nat) : List WorkerMsg :=
  WorkerMsg.status ("Initializing benchmarks with operation size: ".toList ++ natToJS v ++
      "...".toList) ::
    WorkerMsg.status ("Running benchmarks with ".toList ++ natToJS v ++
      " operations per iteration...".toList) ::
    ((CRDTBenchmarks.runAllBenchmarks reg tout maxIter).1.map
        (fun rs => WorkerMsg.progress rs (progressMessage reg rs)) ++
      match (CRDTBenchmarks.runAllBenchmarks reg tout maxIter).2 with
      | .ok res => [WorkerMsg.complete res (completeMsgStructured v),
                    WorkerMsg.progress res (completeMsgStructured v)]
      | .error e => [workerErrorMsg e])

/-- The structured-start branch's op-size fallback:
`const opSize = e.data.opSize || BENCHMARK_CONFIG.OP_SIZE;` — a falsy
(absent or zero) field falls back to the currently stored value. -/
def structuredEffOpSize (stored : Nat) (o : Option Nat) : Nat :=
  match o with
  | none => stored
  | some n => if n = 0 then stored else n

/-- Effect of one inbound message on the module-level `BENCHMARK_CONFIG`
(which persists across messages): a start branch constructs `CRDTBenchmarks`,
whose constructor conditionally assigns `OP_SIZE`; every other message is
ignored by the handler. -/
def stepConfig (cfg : BenchmarkConfig) : InboundMsg → BenchmarkConfig
  | .bareStart => ctorApplyOpSize none cfg
  | .structuredStart o => ctorApplyOpSize (some (structuredEffOpSize cfg.OP_SIZE o)) cfg
  | .runSingle _ _ => cfg
  | .other => cfg

/-- The op-size a run triggered by this message executes with: the task
executables read `BENCHMARK_CONFIG.OP_SIZE` live, i.e. its value after the
constructor ran; `none` when the message starts no run. -/
def runOpSizeOf (cfg : BenchmarkConfig) (m : InboundMsg) : Option Nat :=
  match m with
  | .bareStart => some (stepConfig cfg m).OP_SIZE
  | .structuredStart _ => some (stepConfig cfg m).OP_SIZE
  | .runSingle _ _ => none
  | .other => none

/-- The stored configuration after the worker has handled a history of
inbound messages, starting from the module's initial `BENCHMARK_CONFIG`. -/
def configAfter (history : List InboundMsg) : BenchmarkConfig :=
  history.foldl stepConfig defaultBenchmarkConfig

/-- `self.onmessage`: dispatch one inbound message. Returns the posted
outbound messages and the configuration afterwards. Only the bare `"start"`
string and objects with `type === "start"` are matched; everything else —
including `{type:"runSingle"}` — falls through both branches and is silently
ignored. -/
def workerHandle (reg : Registry) (tout : ℚ) (maxIter : Nat) (cfg : BenchmarkConfig) :
    InboundMsg → List WorkerMsg × BenchmarkConfig
  | .bareStart => (bareStartTrace reg tout maxIter, stepConfig cfg .bareStart)
  | .structuredStart o =>
    (structuredStartTrace reg tout maxIter (structuredEffOpSize cfg.OP_SIZE o),
      stepConfig cfg (.structuredStart o))
  | .runSingle _ _ => ([], cfg)
  | .other => ([], cfg)

/-- Recognizer for `complete`-typed outbound messages. -/
def isCompleteMsg : WorkerMsg → Bool
  | .complete _ _ => true
  | _ => false

/-- Recognizer for `error`-typed outbound messages. -/
def isErrorMsg : WorkerMsg → Bool
  | .error _ _ => true
  | _ => false

/-- Number of `complete`-typed messages in a trace. -/
def countComplete (l : List WorkerMsg) : Nat := l.countP isCompleteMsg

/-- Number of `error`-typed messages in a trace. -/
def countError (l : List WorkerMsg) : Nat := l.countP isErrorMsg

/-- Inbound messages that carry no truthy op-size override (they leave the
stored configuration unchanged). -/
def noTruthyOverride : InboundMsg → Prop
  | .structuredStart (some n) => n = 0
  | _ => True

/-- The registry keys of `CODE_SNIPPETS`, in source order. -/
def CODE_SNIPPETS_keys : List JSString :=
  [ "Yjs - Text Insert".toList
  , "Automerge - Text Insert".toList
  , "Loro - Text Insert".toList
  , "Yjs - List Operations".toList
  , "Automerge - List Operations".toList
  , "Loro - List Operations".toList
  , "Yjs - Map Operations".toList
  , "Automerge - Map Operations".toList
  , "Loro - Map Operations".toList
  , "Yjs - Map Concurrent Same Entry".toList
  , "Automerge - Map Concurrent Same Entry".toList
  , "Loro - Map Concurrent Same Entry".toList
  , "Loro - Tree Operations".toList
  , "Yjs - Simple Sync".toList
  , "Automerge - Simple Sync".toList
  , "Loro - Simple Sync".toList
  , "Yjs - Concurrent Sync".toList
  , "Automerge - Concurrent Sync".toList
  , "Loro - Concurrent Sync".toList ]

/-- A concrete terminating executable each of whose invocations takes
1000 ms — longer than the default 500 ms timeout budget. -/
def slowTaskBehavior : TaskBehavior := ⟨fun _ => none, fun _ => 1000⟩

/-- A concrete registered task backed by `slowTaskBehavior`. -/
def slowTask : BenchmarkTask := ⟨"X - T".toList, slowTaskBehavior, []⟩

/-- A concrete executable whose very first (warmup) invocation throws a JS
`Error` carrying a stack trace. -/
def throwTaskBehavior : TaskBehavior :=
  ⟨fun _ => some (JsThrown.error "boom".toList (some "stacktrace".toList)), fun _ => 0⟩

/-- A one-entry registry whose only task throws on its first invocation. -/
def throwingRegistry : Registry := [("X - T".toList, ⟨[], throwTaskBehavior⟩)]

/-- Helper: folding `'a' :: ·` over `List.range n` grows the accumulator by
exactly `n` characters. -/
theorem yjs_foldl_length (n : Nat) (acc : List Char) :
    ((List.range n).foldl (fun text _ => 'a' :: text) acc).length = n + acc.length := by
  induction n generalizing acc with
  | zero => simp
  | succ n ih =>
    rw [List.range_succ, List.foldl_append]
    simp only [List.foldl_cons, List.foldl_nil, List.length_cons, ih]
    omega

/-- Claim C1, counterexample: constructing with `opSize = 10`, building the
`Yjs - Text Insert` task, then mutating the configuration's op-size to `99`
before `run()` makes the already-built task perform 99 operations, not the 10
fixed at build time — the executable reads the configuration live. -/
theorem c1_counterexample :
    configSnapshotRun 10 99 = 99 ∧ configSnapshotRun 10 99 ≠ 10 := by decide

/-- Claim C1, amended: a task built at one op-size performs the number of
operations given by the configuration value current at invocation time —
the closure holds a live reference to the shared configuration, not a
snapshot, so mutation between build and run does change behaviour. -/
theorem c1_amended (buildOpSize mutatedOpSize : Nat) :
    configSnapshotRun buildOpSize mutatedOpSize = mutatedOpSize := by
  unfold configSnapshotRun yjsTextInsertFn
  simpa using yjs_foldl_length mutatedOpSize []

/-- Claim C3: an inbound `{type:"runSingle", ...}` message matches neither
branch of the worker's `onmessage` handler — it is silently ignored: no run
begins, no outbound message is posted, and the stored configuration is
unchanged. (The claim itself expects a single-category run; see RESULTS.) -/
theorem c3_runSingle_ignored (reg : Registry) (tout : ℚ) (maxIter : Nat)
    (cfg : BenchmarkConfig) (benchmarkName : JSString) (opSize : Option Nat) :
    workerHandle reg tout maxIter cfg (.runSingle benchmarkName opSize) = ([], cfg) := rfl

/-- Claim C5, counterexample: for the task name `"A - B - C"` the code's
parsing yields operation `"B"` (the second split segment), not the entire
remainder `"B - C"` after the first delimiter that the claim demands. -/
theorem c5_counterexample :
    parseTaskName "A - B - C".toList = ("A".toList, "B".toList) ∧
    specParseTaskName "A - B - C".toList = ("A".toList, "B - C".toList) ∧
    parseTaskName "A - B - C".toList ≠ specParseTaskName "A - B - C".toList := by decide

/-- Claim C5, amended: the implementation field is the segment before the
first delimiter, and the operation field is the *second split segment* (the
text between the first and second delimiters), so later delimiters and their
segments are dropped from the result; if the delimiter is absent, both
fields equal the full task name. -/
theorem c5_amended :
    (∀ (name p0 p1 : JSString) (rest : List JSString),
      jsSplit sepDash name = p0 :: p1 :: rest → parseTaskName name = (p0, p1)) ∧
    (∀ (name p0 : JSString), jsSplit sepDash name = [p0] → parseTaskName name = (p0, name)) := by
  constructor
  · intro name p0 p1 rest h
    simp [parseTaskName, h]
  · intro name p0 h
    simp [parseTaskName, h]

/-- Witness for `c5_amended` at the concrete name `"A - B"`. -/
theorem c5_witness : parseTaskName "A - B".toList = ("A".toList, "B".toList) :=
  c5_amended.1 "A - B".toList "A".toList "B".toList [] (by decide)

/-- Claim C10: a structured start whose `opSize` field is absent or `0`
(falsy) carries no override — the worker's fallback picks the stored value,
the constructor's conditional assignment is skipped, and the run proceeds
with the currently stored op-size. -/
theorem c10_falsy_opSize_no_override (stored : Nat) (cfg : BenchmarkConfig) :
    structuredEffOpSize stored (some 0) = stored ∧
    structuredEffOpSize stored none = stored ∧
    ctorApplyOpSize (some 0) cfg = cfg ∧
    stepConfig cfg (.structuredStart (some 0)) = cfg ∧
    runOpSizeOf cfg (.structuredStart (some 0)) = some cfg.OP_SIZE := by
  have hstep : stepConfig cfg (.structuredStart (some 0)) = cfg := by
    simp [stepConfig, structuredEffOpSize, ctorApplyOpSize]
  refine ⟨rfl, rfl, rfl, hstep, ?_⟩
  simp [runOpSizeOf, hstep]

/-- Helper: `insertGroup` affects the grouping map's key sequence exactly as
one first-occurrence de-duplication step. -/
theorem insertGroup_map_fst (op key : JSString) (gs : List (JSString × List JSString)) :
    (insertGroup op key gs).map Prod.fst = dedupStep (gs.map Prod.fst) op := by
  induction gs with
  | nil => simp [insertGroup, dedupStep]
  | cons hd tl ih =>
    obtain ⟨g, ks⟩ := hd
    by_cases hg : g = op
    · subst hg
      simp [insertGroup, dedupStep]
    · by_cases hmem : op ∈ tl.map Prod.fst
      · simp [insertGroup, dedupStep, hg, Ne.symm hg, hmem, ih]
      · simp [insertGroup, dedupStep, hg, Ne.symm hg, hmem, ih]

/-- Helper: the key sequence of the grouping fold is the first-occurrence
de-duplication fold of the extracted operation segments. -/
theorem groupFold_map_fst (keys : List JSString) (gs : List (JSString × List JSString)) :
    (keys.foldl groupStep gs).map Prod.fst =
      (keys.filterMap opSegment).foldl dedupStep (gs.map Prod.fst) := by
  induction keys generalizing gs with
  | nil => simp
  | cons k keys ih =>
    simp only [List.foldl_cons, List.filterMap_cons]
    cases h : opSegment k with
    | none => simp [groupStep, h, ih]
    | some op =>
      simp only [groupStep, h, ih, List.foldl_cons]
      rw [insertGroup_map_fst]

/-- Claim C2, counterexample: on the repository's actual registry keys the
category sequence that `runAllBenchmarks` processes is the first-occurrence
order of the operation segments, which differs from the sorted,
de-duplicated list the claim demands. -/
theorem c2_counterexample :
    CRDTBenchmarks.runAllCategorySequence CODE_SNIPPETS_keys =
      [ "Text Insert".toList, "List Operations".toList, "Map Operations".toList
      , "Map Concurrent Same Entry".toList, "Tree Operations".toList
      , "Simple Sync".toList, "Concurrent Sync".toList ] ∧
    specSortedCategories CODE_SNIPPETS_keys =
      [ "Concurrent Sync".toList, "List Operations".toList
      , "Map Concurrent Same Entry".toList, "Map Operations".toList
      , "Simple Sync".toList, "Text Insert".toList, "Tree Operations".toList ] ∧
    CRDTBenchmarks.runAllCategorySequence CODE_SNIPPETS_keys ≠
      specSortedCategories CODE_SNIPPETS_keys := by decide

/-- Claim C2, amended: for every registry contents, `runAllBenchmarks`
processes the operation categories strictly sequentially in the
*first-occurrence (registry-insertion) order* of the operation segments,
de-duplicated — not in sorted order. -/
theorem c2_amended (keys : List JSString) :
    CRDTBenchmarks.runAllCategorySequence keys = dedupFirstOcc (keys.filterMap opSegment) := by
  unfold CRDTBenchmarks.runAllCategorySequence CRDTBenchmarks.groupBenchmarksByOperation
    dedupFirstOcc
  simpa using groupFold_map_fst keys []

/-- Helper: an inbound message without a truthy op-size override leaves the
stored configuration unchanged. -/
theorem stepConfig_of_noTruthyOverride (cfg : BenchmarkConfig) (m : InboundMsg)
    (h : noTruthyOverride m) : stepConfig cfg m = cfg := by
  cases m with
  | bareStart => rfl
  | structuredStart o =>
    cases o with
    | none =>
      simp only [stepConfig, structuredEffOpSize, ctorApplyOpSize]
      split <;> rfl
    | some n =>
      have hn : n = 0 := h
      subst hn
      simp [stepConfig, structuredEffOpSize, ctorApplyOpSize]
  | runSingle _ _ => rfl
  | other => rfl

/-- Claim C8, counterexample: after an earlier structured start carrying
`opSize = 99`, a later bare `"start"` runs with op-size 99 — not with the
default 128 the claim demands for every prior history. -/
theorem c8_counterexample :
    runOpSizeOf (configAfter [.structuredStart (some 99)]) .bareStart = some 99 ∧
    runOpSizeOf (configAfter [.structuredStart (some 99)]) .bareStart ≠ some 128 := by decide

/-- Claim C8, amended: a bare `"start"` runs with the *currently stored*
op-size, which the module-level configuration carries across messages: it is
128 only when no earlier message carried a truthy override, and after a
structured start with a nonzero `opSize = n` a later bare start runs with
`n`. -/
theorem c8_amended :
    (∀ history : List InboundMsg, (∀ m ∈ history, noTruthyOverride m) →
      runOpSizeOf (configAfter history) .bareStart = some 128) ∧
    (∀ (history : List InboundMsg) (n : Nat), n ≠ 0 →
      runOpSizeOf (configAfter (history ++ [.structuredStart (some n)])) .bareStart = some n) := by
  constructor
  · have hc : ∀ hist : List InboundMsg, (∀ m ∈ hist, noTruthyOverride m) →
        configAfter hist = defaultBenchmarkConfig := by
      intro hist
      unfold configAfter
      induction hist with
      | nil => intro _; rfl
      | cons m ms ih =>
        intro hh
        rw [List.foldl_cons, stepConfig_of_noTruthyOverride _ _ (hh m (by simp))]
        exact ih fun x hx => hh x (by simp [hx])
    intro history h
    rw [hc history h]
    rfl
  · intro history n hn
    unfold configAfter
    rw [List.foldl_append]
    simp only [List.foldl_cons, List.foldl_nil]
    have hstep : stepConfig (List.foldl stepConfig defaultBenchmarkConfig history)
        (.structuredStart (some n)) =
        { List.foldl stepConfig defaultBenchmarkConfig history with OP_SIZE := n } := by
      simp [stepConfig, structuredEffOpSize, ctorApplyOpSize, hn]
    rw [hstep]
    rfl

/-- Witness for `c8_amended` at two concrete histories. -/
theorem c8_witness :
    runOpSizeOf (configAfter [.bareStart, .structuredStart (some 0)]) .bareStart = some 128 ∧
    runOpSizeOf (configAfter ([.bareStart] ++ [.structuredStart (some 7)])) .bareStart = some 7 := by
  constructor
  · refine c8_amended.1 [.bareStart, .structuredStart (some 0)] ?_
    intro m hm
    rcases List.mem_cons.mp hm with rfl | hm2
    · trivial
    · rcases List.mem_singleton.mp hm2 with rfl
      rfl
  · exact c8_amended.2 [.bareStart] 7 (by decide)

/-- Helper: a never-throwing executable completes every warmup loop. -/
theorem warmupAux_ok (tb : TaskBehavior) (h : ∀ n, tb.err n = none) (k idx : Nat) :
    warmupAux tb k idx = .ok () := by
  induction k generalizing idx with
  | zero => rfl
  | succ k ih => simp [warmupAux, h idx, ih]

/-- Helper: for a never-throwing executable the measurement loop succeeds and
adds at most `fuel` samples to the accumulator. -/
theorem measureAux_ok (tb : TaskBehavior) (tout : ℚ) (h : ∀ n, tb.err n = none)
    (fuel : Nat) : ∀ (idx : Nat) (elapsed : ℚ) (acc : List ℚ),
    ∃ l, measureAux tb tout fuel idx elapsed acc = .ok l ∧
      acc.length ≤ l.length ∧ l.length ≤ acc.length + fuel := by
  induction fuel with
  | zero => intro idx elapsed acc; exact ⟨acc.reverse, rfl, by simp, by simp⟩
  | succ fuel ih =>
    intro idx elapsed acc
    by_cases hlt : elapsed < tout
    · obtain ⟨l, hl, h1, h2⟩ := ih (idx + 1) (elapsed + tb.dur idx) (tb.dur idx :: acc)
      refine ⟨l, ?_, ?_, ?_⟩
      · simp only [measureAux, if_pos hlt, h idx]
        exact hl
      · simp only [List.length_cons] at h1; omega
      · simp only [List.length_cons] at h2; omega
    · exact ⟨acc.reverse, by simp [measureAux, hlt], by simp, by simp⟩

/-- Claim C6: for every registered task whose executable terminates without
throwing, `runTask` succeeds and its result satisfies
`1 ≤ samples.length ≤ maxIterations`: the guard is checked before each
invocation and the clock only advances by invocation durations, so the first
iteration always runs (even if that single invocation exceeds the timeout),
and the iteration cap is never exceeded. -/
theorem c6_samples_bounds (task : BenchmarkTask) (tout : ℚ) (maxIter : Nat)
    (hterm : ∀ n, task.behavior.err n = none) (ht : 0 < tout) (hm : 0 < maxIter) :
    ∃ r, SimpleBench.runTask tout maxIter task = .ok r ∧
      1 ≤ r.samples.length ∧ r.samples.length ≤ maxIter := by
  obtain ⟨m, rfl⟩ : ∃ m, maxIter = m + 1 :=
    ⟨maxIter - 1, by omega⟩
  have hw : warmupRun task.behavior = .ok () := warmupAux_ok _ hterm _ _
  obtain ⟨l, hl, h1, h2⟩ := measureAux_ok task.behavior tout hterm m (warmupIterations + 1)
    (0 + task.behavior.dur warmupIterations) [task.behavior.dur warmupIterations]
  have hms : measureAux task.behavior tout (m + 1) warmupIterations 0 [] = .ok l := by
    simp only [measureAux, if_pos ht, hterm warmupIterations]
    exact hl
  refine ⟨{ name := (parseTaskName task.name).2
            library := (parseTaskName task.name).1
            opsPerSecond := ((l.length : ℚ) / l.sum) * 1000
            samples := l
            code := task.code
            executionTime := l.sum }, ?_, ?_, ?_⟩
  · rw [SimpleBench.runTask]
    simp only [hw, hms]
  · simpa using h1
  · show l.length ≤ m + 1
    simp only [List.length_cons, List.length_nil] at h2
    omega

/-- Witness for `c6_samples_bounds` with the constructor-default timeout
(500 ms) and iteration cap (50), on a task whose single invocation takes
1000 ms — the case the claim singles out. -/
theorem c6_witness :
    ∃ r, SimpleBench.runTask (effTimeoutMs none) (effIterations none) slowTask = .ok r ∧
      1 ≤ r.samples.length ∧ r.samples.length ≤ effIterations none :=
  c6_samples_bounds slowTask (effTimeoutMs none) (effIterations none)
    (fun _ => rfl) (by norm_num [effTimeoutMs]) (by norm_num [effIterations])

/-- Claim C7, counterexample: a completed task whose single sample is 0 ms —
reachable, since `performance.now()` deltas can be exactly 0 at timer
resolution — has mean 0 and standard deviation 0, so the code stores the
float `0 / 0`, `NaN`: not the `0` the claim demands for `sampleCount ≤ 1`.
Likewise an all-zero two-sample list stores `NaN`, which is not `≥ 0`. -/
theorem c7_counterexample :
    relativeErrorJs [(0 : ℚ)] = JsRelError.nan ∧
    relativeErrorJs [(0 : ℚ)] ≠ JsRelError.finite 0 ∧
    relativeErrorJs [(0 : ℚ), 0] = JsRelError.nan := by
  have h1 : mean [(0 : ℚ)] = 0 := by norm_num [mean]
  have h2 : mean [(0 : ℚ), 0] = 0 := by norm_num [mean]
  have hs1 : stdDev [(0 : ℚ)] = 0 := by norm_num [stdDev, variance, h1]
  have hs2 : stdDev [(0 : ℚ), 0] = 0 := by norm_num [stdDev, variance, h2]
  refine ⟨?_, ?_, ?_⟩
  · simp [relativeErrorJs, h1, hs1]
  · simp [relativeErrorJs, h1, hs1]
  · simp [relativeErrorJs, h2, hs2]

/-- Claim C7, amended: for a completed task whose mean sample duration is
nonzero, the stored relative error is the finite value
`(population stdDev / mean) * 100`; under that proviso it equals 0 when
`sampleCount ≤ 1`, and it is a finite nonnegative value whenever
`sampleCount > 1` (sample durations being nonnegative). When every sample is
0 ms, the code instead stores the float `NaN` (see the counterexample). -/
theorem c7_amended (l : List ℚ) (h : ∀ x ∈ l, 0 ≤ x) (hm : mean l ≠ 0) :
    relativeErrorJs l = JsRelError.finite ((stdDev l / ((mean l : ℚ) : ℝ)) * 100) ∧
    (l.length ≤ 1 → relativeErrorJs l = JsRelError.finite 0) ∧
    (1 < l.length → ∃ x, relativeErrorJs l = JsRelError.finite x ∧ 0 ≤ x) := by
  have hmr : ((mean l : ℚ) : ℝ) ≠ 0 := by exact_mod_cast hm
  have hfin : relativeErrorJs l =
      JsRelError.finite ((stdDev l / ((mean l : ℚ) : ℝ)) * 100) := by
    rw [relativeErrorJs, if_pos hmr]
  refine ⟨hfin, ?_, ?_⟩
  · intro hlen
    cases l with
    | nil => exact absurd (by norm_num [mean]) hm
    | cons a t =>
      cases t with
      | nil =>
        rw [hfin]
        have hsd : stdDev [a] = 0 := by norm_num [stdDev, variance, mean]
        rw [hsd]
        simp
      | cons b t2 => simp at hlen
  · intro _
    rw [hfin]
    refine ⟨_, rfl, ?_⟩
    have hmean : 0 ≤ mean l := by
      unfold mean
      apply div_nonneg (List.sum_nonneg h)
      positivity
    apply mul_nonneg
    · apply div_nonneg (Real.sqrt_nonneg _)
      exact_mod_cast hmean
    · norm_num

/-- Witness for `c7_amended` at concrete sample lists with nonzero mean. -/
theorem c7_witness :
    relativeErrorJs [(7 : ℚ)] = JsRelError.finite 0 ∧
    (∃ x, relativeErrorJs [(2 : ℚ), 4] = JsRelError.finite x ∧ 0 ≤ x) :=
  ⟨(c7_amended [7] (by norm_num) (by norm_num [mean])).2.1 (by norm_num),
    (c7_amended [2, 4] (by norm_num) (by norm_num [mean])).2.2 (by norm_num)⟩

/-- Helper: progress messages are never counted as `complete`. -/
theorem countP_complete_progressMap (snaps : List (List BenchmarkResult))
    (f : List BenchmarkResult → JSString) :
    List.countP isCompleteMsg (snaps.map fun rs => WorkerMsg.progress rs (f rs)) = 0 := by
  induction snaps with
  | nil => rfl
  | cons s t ih => simp [List.countP_cons, isCompleteMsg, ih]

/-- Helper: progress messages are never counted as `error`. -/
theorem countP_error_progressMap (snaps : List (List BenchmarkResult))
    (f : List BenchmarkResult → JSString) :
    List.countP isErrorMsg (snaps.map fun rs => WorkerMsg.progress rs (f rs)) = 0 := by
  induction snaps with
  | nil => rfl
  | cons s t ih => simp [List.countP_cons, isErrorMsg, ih]

/-- Helper: the worker's catch-branch message is `error`-typed, never
`complete`-typed, whatever was thrown. -/
theorem workerErrorMsg_kind (e : JsThrown) :
    isCompleteMsg (workerErrorMsg e) = false ∧ isErrorMsg (workerErrorMsg e) = true := by
  cases e <;> exact ⟨rfl, rfl⟩

/-- Claim C4, counterexample: on a successful bare-start run (empty registry
for concreteness) the trace contains exactly one `complete`-typed message —
the delayed re-send of the final payload is emitted with type `progress`,
so the complete-typed message is not sent twice. -/
theorem c4_counterexample :
    bareStartTrace [] 500 50 =
      [ WorkerMsg.status "Initializing benchmarks...".toList
      , WorkerMsg.status "Running benchmarks...".toList
      , WorkerMsg.complete [] completeMsgBare
      , WorkerMsg.progress [] completeMsgBare ] ∧
    countComplete (bareStartTrace [] 500 50) = 1 ∧
    countComplete (bareStartTrace [] 500 50) ≠ 2 := by decide

/-- Claim C4, amended: on successful completion both start branches emit one
`complete` message with the final cumulative results and then — after the
fixed 500 ms delay — re-emit the same final payload once more as a
`progress`-typed message; the `complete`-typed message is sent exactly
once. -/
theorem c4_amended :
    (∀ (reg : Registry) (tout : ℚ) (maxIter : Nat) (res : List BenchmarkResult),
      (CRDTBenchmarks.runAllBenchmarks reg tout maxIter).2 = .ok res →
      (∃ l, bareStartTrace reg tout maxIter =
          l ++ [WorkerMsg.complete res completeMsgBare,
                WorkerMsg.progress res completeMsgBare]) ∧
      countComplete (bareStartTrace reg tout maxIter) = 1) ∧
    (∀ (reg : Registry) (tout : ℚ) (maxIter : Nat) (v : Nat) (res : List BenchmarkResult),
      (CRDTBenchmarks.runAllBenchmarks reg tout maxIter).2 = .ok res →
      (∃ l, structuredStartTrace reg tout maxIter v =
          l ++ [WorkerMsg.complete res (completeMsgStructured v),
                WorkerMsg.progress res (completeMsgStructured v)]) ∧
      countComplete (structuredStartTrace reg tout maxIter v) = 1) := by
  constructor
  · intro reg tout maxIter res h
    constructor
    · refine ⟨WorkerMsg.status "Initializing benchmarks...".toList ::
        WorkerMsg.status "Running benchmarks...".toList ::
        (CRDTBenchmarks.runAllBenchmarks reg tout maxIter).1.map
          (fun rs => WorkerMsg.progress rs (progressMessage reg rs)), ?_⟩
      rw [bareStartTrace, h]
      simp
    · rw [countComplete, bareStartTrace, h]
      simp [List.countP_cons, List.countP_append, isCompleteMsg, countP_complete_progressMap]
  · intro reg tout maxIter v res h
    constructor
    · refine ⟨WorkerMsg.status ("Initializing benchmarks with operation size: ".toList ++
          natToJS v ++ "...".toList) ::
        WorkerMsg.status ("Running benchmarks with ".toList ++ natToJS v ++
          " operations per iteration...".toList) ::
        (CRDTBenchmarks.runAllBenchmarks reg tout maxIter).1.map
          (fun rs => WorkerMsg.progress rs (progressMessage reg rs)), ?_⟩
      rw [structuredStartTrace, h]
      simp
    · rw [countComplete, structuredStartTrace, h]
      simp [List.countP_cons, List.countP_append, isCompleteMsg, countP_complete_progressMap]

/-- Witness for `c4_amended` at the empty registry. -/
theorem c4_witness :
    (∃ l, bareStartTrace [] 500 50 =
        l ++ [WorkerMsg.complete [] completeMsgBare, WorkerMsg.progress [] completeMsgBare]) ∧
    countComplete (bareStartTrace [] 500 50) = 1 :=
  c4_amended.1 [] 500 50 [] rfl

/-- Claim C9: an exception from a task executable — thrown during warmup or
during measurement — propagates uncaught out of `runTask` and out of
`run()`: the run produces no result for the throwing task or for any task
after it and is never retried; and when the uncaught exception reaches the
worker, the trace carries exactly one terminal `error` message (with the
stack trace when the thrown value is an `Error`) and no `complete` message
for that run. -/
theorem c9_error_propagation :
    (∀ (task : BenchmarkTask) (tout : ℚ) (maxIter : Nat) (e : JsThrown),
      task.behavior.err 0 = some e →
      SimpleBench.runTask tout maxIter task = .error e) ∧
    (∀ (task : BenchmarkTask) (tout : ℚ) (maxIter : Nat) (e : JsThrown),
      (∀ k, k < warmupIterations → task.behavior.err k = none) →
      task.behavior.err warmupIterations = some e → 0 < tout → 0 < maxIter →
      SimpleBench.runTask tout maxIter task = .error e) ∧
    (∀ (tout : ℚ) (maxIter : Nat) (pre post : List BenchmarkTask) (t : BenchmarkTask)
      (e : JsThrown) (rs : List BenchmarkResult),
      SimpleBench.run tout maxIter pre = .ok rs →
      SimpleBench.runTask tout maxIter t = .error e →
      SimpleBench.run tout maxIter (pre ++ t :: post) = .error e) ∧
    (∀ (reg : Registry) (tout : ℚ) (maxIter : Nat) (e : JsThrown),
      (CRDTBenchmarks.runAllBenchmarks reg tout maxIter).2 = .error e →
      (∃ l, bareStartTrace reg tout maxIter = l ++ [workerErrorMsg e]) ∧
      countComplete (bareStartTrace reg tout maxIter) = 0 ∧
      countError (bareStartTrace reg tout maxIter) = 1) := by
  refine ⟨?_, ?_, ?_, ?_⟩
  · intro task tout maxIter e h
    rw [SimpleBench.runTask, warmupRun, warmupIterations]
    simp [warmupAux, h]
  · intro task tout maxIter e hw h5 ht hm
    obtain ⟨m, rfl⟩ : ∃ m, maxIter = m + 1 := ⟨maxIter - 1, by omega⟩
    have hwr : warmupRun task.behavior = .ok () := by
      rw [warmupRun, warmupIterations]
      simp [warmupAux, hw 0 (by decide), hw 1 (by decide), hw 2 (by decide),
        hw 3 (by decide), hw 4 (by decide)]
    have hms : measureAux task.behavior tout (m + 1) warmupIterations 0 [] = .error e := by
      simp only [measureAux, if_pos ht, h5]
    rw [SimpleBench.runTask]
    simp only [hwr, hms]
  · intro tout maxIter pre
    induction pre with
    | nil =>
      intro post t e rs _ ht
      simp only [List.nil_append, SimpleBench.run, ht]
    | cons a pre ih =>
      intro post t e rs hpre ht
      rw [SimpleBench.run] at hpre
      cases ha : SimpleBench.runTask tout maxIter a with
      | error e2 => rw [ha] at hpre; simp at hpre
      | ok r =>
        rw [ha] at hpre
        cases hp : SimpleBench.run tout maxIter pre with
        | error e2 => rw [hp] at hpre; simp at hpre
        | ok rs2 =>
          have hrest := ih post t e rs2 hp ht
          have hrest' : SimpleBench.run tout maxIter (pre.append (t :: post)) =
              Except.error e := hrest
          simp only [List.cons_append, SimpleBench.run, ha, hrest, hrest']
  · intro reg tout maxIter e h
    refine ⟨⟨WorkerMsg.status "Initializing benchmarks...".toList ::
        WorkerMsg.status "Running benchmarks...".toList ::
        (CRDTBenchmarks.runAllBenchmarks reg tout maxIter).1.map
          (fun rs => WorkerMsg.progress rs (progressMessage reg rs)), ?_⟩, ?_, ?_⟩
    · rw [bareStartTrace, h]
      simp
    · rw [countComplete, bareStartTrace, h]
      cases e <;>
        simp [List.countP_cons, List.countP_append, isCompleteMsg,
          countP_complete_progressMap, workerErrorMsg]
    · rw [countError, bareStartTrace, h]
      cases e <;>
        simp [List.countP_cons, List.countP_append, isErrorMsg,
          countP_error_progressMap, workerErrorMsg]

/-- Witness for `c9_error_propagation` on a concrete throwing task and the
one-task registry built from it. -/
theorem c9_witness :
    SimpleBench.runTask 500 50 (BenchmarkTask.mk "X - T".toList throwTaskBehavior []) =
      .error (JsThrown.error "boom".toList (some "stacktrace".toList)) ∧
    SimpleBench.run 500 50
        ([] ++ BenchmarkTask.mk "X - T".toList throwTaskBehavior [] :: []) =
      .error (JsThrown.error "boom".toList (some "stacktrace".toList)) ∧
    (∃ l, bareStartTrace throwingRegistry 500 50 =
        l ++ [workerErrorMsg (JsThrown.error "boom".toList (some "stacktrace".toList))]) ∧
    countComplete (bareStartTrace throwingRegistry 500 50) = 0 ∧
    countError (bareStartTrace throwingRegistry 500 50) = 1 := by
  have h1 := c9_error_propagation.1 (BenchmarkTask.mk "X - T".toList throwTaskBehavior [])
    500 50 (JsThrown.error "boom".toList (some "stacktrace".toList)) rfl
  have h3 := c9_error_propagation.2.2.1 500 50 [] []
    (BenchmarkTask.mk "X - T".toList throwTaskBehavior [])
    (JsThrown.error "boom".toList (some "stacktrace".toList)) [] rfl h1
  have h4 := c9_error_propagation.2.2.2 throwingRegistry 500 50
    (JsThrown.error "boom".toList (some "stacktrace".toList)) rfl
  exact ⟨h1, h3, h4.1, h4.2.1, h4.2.2⟩
